import Mathlib

/-!
# Verification of the euporie application-lifecycle layer

Shallow embedding of the coordination logic of `euporie` (files
`euporie/core/app.py` and `euporie/app/tui.py`) together with proofs about
the tab collection's close-chain protocol, the modal-dialog discipline,
terminal-capability negotiation during `pre_run`, and style recomputation.

Mutable Python attributes become fields of explicit state records; methods
become functions from state to state.  Operations that can raise an uncaught
Python exception return `Option` (`none` models the raise).  External
collaborators (prompt_toolkit layout/focus, tab implementations) are modelled
at the interface boundary the source relies on.
-/

set_option autoImplicit false

namespace Euporie

/-- Modelled from the spec: a tab implementation (external collaborator,
`euporie.tabs.*` is not part of the analysed sources).  A tab has a stable
identity, an optional file path used for "already open" detection, and a
`close(cb)` operation which "invokes callback only on successful close; never
invokes it if the user cancels".  The field `willing` records whether this
tab's close operation will invoke its callback (false models a close that is
declined or still pending). -/
structure Tab where
  id : Nat
  path : Option String
  willing : Bool
deriving DecidableEq

/-- The application state relevant to the tab collection: mirrors
`EuporieApp.tabs`, `EuporieApp._tab_idx`, `Application.render_counter`, the
layout focus (which tab's subtree holds the input focus, if any), whether
`super().exit` has been called, and a log of the tabs whose `close()` was
requested, in request order. -/
structure AppState where
  tabs : List Tab
  tab_idx : Int
  renderCounter : Nat
  focusedTab : Option Nat
  exited : Bool
  closeRequests : List Nat
deriving DecidableEq

/-- Model of `self.layout.has_focus(tab)`: the layout reports focus inside the
given tab's container subtree. -/
def layout_has_focus (s : AppState) (t : Tab) : Bool :=
  s.focusedTab == some t.id

/-- Model of `self.layout.focus(tab)` for a tab container: the tabs are always
part of the layout's container tree, so this focus call cannot fail. -/
def layout_focus_tab (t : Tab) (s : AppState) : AppState :=
  { s with focusedTab := some t.id }

/-- Model of `try: self.layout.focus_next() except ValueError: pass` when no
tab remains: focus moves (or stays) outside any tab; a missing focus target is
swallowed.  In either case no tab holds focus afterwards. -/
def layout_focus_next_safe (s : AppState) : AppState :=
  { s with focusedTab := none }

/-- The scan loop of the `EuporieApp.tab` property (`core/app.py` lines
420-423): the first tab whose subtree holds focus, provided at least one
render has happened, becomes the cached index; otherwise the cache is kept. -/
def tab_scan (s : AppState) : Int :=
  match s.tabs.findIdx? (fun t => decide (0 < s.renderCounter) && layout_has_focus s t) with
  | some i => (i : Int)
  | none => s.tab_idx

/-- Embedding of the `EuporieApp.tab` property (`core/app.py` lines 414-427).
The property has a side effect on `_tab_idx` (focus detection, then clamping
`max(0, min(_tab_idx, len(tabs) - 1))`), so it returns the tab read together
with the updated state. -/
def EuporieApp.tab (s : AppState) : Option Tab × AppState :=
  match s.tabs with
  | [] => (none, s)
  | _ :: _ =>
    let i2 : Int := max 0 (min (tab_scan s) ((s.tabs.length : Int) - 1))
    let s' : AppState := { s with tab_idx := i2 }
    (s'.tabs[i2.toNat]?, s')

/-- Embedding of `EuporieApp.cleanup_closed_tab` (`core/app.py` lines
444-465): remove the tab (`list.remove` raises `ValueError` when absent,
modelled by `none`), then re-evaluate the `tab` property; if a tab remains,
focus it (the property is evaluated a second time as the argument of
`layout.focus`), otherwise try `focus_next`, swallowing any error. -/
def EuporieApp.cleanup_closed_tab (t : Tab) (s : AppState) : Option AppState :=
  if t ∈ s.tabs then
    let s1 : AppState := { s with tabs := s.tabs.erase t }
    match EuporieApp.tab s1 with
    | (some _, s2) =>
      match EuporieApp.tab s2 with
      | (some t2, s3) => some (layout_focus_tab t2 s3)
      | (none, s3) => some s3
    | (none, s2) => some (layout_focus_next_safe s2)
  else
    none

/-- Model of `tab.close(cb)` (external collaborator, spec external-interface
contract): the close request is recorded, and the callback runs if and only if
the tab's close completes (`willing`). -/
def Tab.close (t : Tab) (cb : AppState → Option AppState) (s : AppState) : Option AppState :=
  let s1 : AppState := { s with closeRequests := s.closeRequests ++ [t.id] }
  if t.willing then cb s1 else some s1

/-- Embedding of the `EuporieApp.tab_idx` setter (`core/app.py` lines
434-438): `self._tab_idx = value % len(self.tabs)` followed by
`self.layout.focus(self.tabs[self._tab_idx])`.  On an empty collection the
Python `%` raises `ZeroDivisionError`, modelled by `none`.  For a positive
modulus Python's `%` agrees with `Int.emod`. -/
def EuporieApp.tab_idx_set (value : Int) (s : AppState) : Option AppState :=
  match s.tabs with
  | [] => none
  | t :: ts =>
    let i : Int := value % ((t :: ts).length : Int)
    let s' : AppState := { s with tab_idx := i }
    some (layout_focus_tab ((t :: ts).get ⟨i.toNat, by
      have hn : (0 : Int) < ((t :: ts).length : Int) := by
        exact_mod_cast Nat.succ_pos ts.length
      have h0 : (0 : Int) ≤ i := Int.emod_nonneg value (by omega)
      have h1 : i < ((t :: ts).length : Int) := Int.emod_lt_of_pos value hn
      omega⟩) s')

/-- Embedding of `EuporieApp.focus_tab` (`core/app.py` lines 440-442):
`self.tab_idx = self.tabs.index(tab)`; `list.index` raises when the tab is
absent. -/
def EuporieApp.focus_tab (t : Tab) (s : AppState) : Option AppState :=
  if t ∈ s.tabs then EuporieApp.tab_idx_set ((s.tabs.indexOf t : Nat) : Int) s
  else none

/-- Modelled from the spec: `parse_path` (`euporie.core.utils`, not among the
analysed sources) deterministically normalises a raw path string.  Any
deterministic parser satisfies the proofs below; it is instantiated as the
identity on strings.  A parsed path object never compares equal to the plain
string `""` that `getattr(tab, "path", "")` yields for path-less tabs, which
the `Option` in `Tab.path` captures. -/
def parse_path (p : String) : String := p

/-- Embedding of `EuporieApp.open_file` (`core/app.py` lines 386-407).  The
`for ... else` loop breaks (doing nothing further) as soon as some open tab's
path equals the parsed path; otherwise `get_file_tab` (overridable factory,
modelled as an optional function producing identity and willingness of the
fresh tab) either fails (log only) or yields a tab which is appended and
focused.  Modelled from the spec: tab implementations record the parsed path
they are constructed with, giving the "stable identity usable for path/type
matching in already-open detection". -/
def EuporieApp.open_file (tab_class : Option (String → Nat × Bool)) (path : String)
    (s : AppState) : Option AppState :=
  let ppath := parse_path path
  if s.tabs.any (fun t => t.path == some ppath) then
    some s
  else
    match tab_class with
    | none => some s
    | some f =>
      let tab : Tab := ⟨(f ppath).1, some ppath, (f ppath).2⟩
      let s1 : AppState := { s with tabs := s.tabs ++ [tab] }
      EuporieApp.focus_tab tab s1

/-- Model of `super().exit` as seen from `TuiApp.exit`: the application's main
loop is told to stop. -/
def really_close (s : AppState) : AppState :=
  { s with exited := true }

/-- Embedding of `final_cb` inside `TuiApp.exit` (`app/tui.py` lines
535-538): clean up `self.tabs[0]` (reading the live list; `IndexError`,
modelled by `none`, if it is empty) and then really exit. -/
def final_cb (s : AppState) : Option AppState :=
  match s.tabs with
  | [] => none
  | t :: _ => (EuporieApp.cleanup_closed_tab t s).map really_close

/-- Embedding of `create_cb` inside `TuiApp.exit` (`app/tui.py` lines
540-563): the generated callback cleans up the previously closed tab and then
requests closing of the next tab in the chain, passing `cb` on. -/
def create_cb (close_t : Tab) (cleanup_t : Tab) (cb : AppState → Option AppState) :
    AppState → Option AppState :=
  fun s => (EuporieApp.cleanup_closed_tab cleanup_t s).bind (Tab.close close_t cb)

/-- Embedding of `TuiApp.exit` (`app/tui.py` lines 521-570).  With a
non-empty collection, the chain callback is folded over
`zip(self.tabs, self.tabs[1:])` starting from `final_cb`, and the *last* tab's
close is requested with the resulting callback.  With an empty collection the
application exits immediately. -/
def TuiApp.exit (s : AppState) : Option AppState :=
  match s.tabs with
  | [] => some (really_close s)
  | t :: ts =>
    let cb := ((t :: ts).zip ts).foldl (fun cb p => create_cb p.1 p.2 cb) final_cb
    Tab.close ((t :: ts).getLast (List.cons_ne_nil t ts)) cb s

/-! ## Modal-dialog model (`TuiApp.dialog`, `app/tui.py` lines 271-347) -/

/-- A focusable/input control of the prompt_toolkit layout, identified by a
stable id. -/
structure Control where
  id : Nat
deriving DecidableEq

/-- A float placed above the base layout.  A dialog float owns the widget
controls of its body and of its buttons; the first button widget is the
default focus target. -/
structure FloatD where
  id : Nat
  bodyControls : List Control
  buttonControls : List Control
deriving DecidableEq

/-- All controls a float contributes to the layout while it is shown. -/
def FloatD.allControls (f : FloatD) : List Control :=
  f.bodyControls ++ f.buttonControls

/-- The application state relevant to the modal-dialog discipline: the owned
dialog overlay list (`self.dialogs`), the `has_dialog` flag, the layout's
control tree (`layout.find_all_controls()`), the currently focused control
(`layout.current_control`), and whether a repaint has been requested. -/
structure TuiState where
  dialogs : List FloatD
  has_dialog : Bool
  controls : List Control
  current_control : Control
  invalidated : Bool
deriving DecidableEq

/-- Modelled from the spec: `add_float` (defined in the application base
class, not among the analysed sources) pushes a float onto the owned overlay
list, most recent on top, and the float's widgets thereby join the layout's
control tree. -/
def add_float (f : FloatD) (s : TuiState) : TuiState :=
  { s with
    dialogs := s.dialogs ++ [f]
    controls := s.controls ++ f.allControls }

/-- Modelled from the spec: `remove_float` (defined in the application base
class, not among the analysed sources) pops the float from the owned overlay
list, and the float's widgets leave the layout's control tree. -/
def remove_float (f : FloatD) (s : TuiState) : TuiState :=
  { s with
    dialogs := s.dialogs.erase f
    controls := s.controls.filter (fun c => !(f.allControls.contains c)) }

/-- Model of `self.layout.focus(control)`: succeeds exactly when the control
is part of the layout, otherwise raises `ValueError` (modelled by `none`). -/
def layout_focus (c : Control) (s : TuiState) : Option TuiState :=
  if c ∈ s.controls then some { s with current_control := c } else none

/-- Model of `self.invalidate()`: request a repaint. -/
def invalidate (s : TuiState) : TuiState :=
  { s with invalidated := true }

/-- Embedding of `TuiApp.dialog` (`app/tui.py` lines 271-347).  If a dialog
is already showing the call returns immediately.  Otherwise the currently
focused control is captured (consumed only by the dismissal handlers, which
`TuiApp.make_handler_inner` embeds), button widgets and key-bindings are
built (widget construction has no effect on this state), the dialog float is
pushed on top of the float stack, `has_dialog` is set, and focus moves to the
requested target or, absent one, to the first button widget
(`button_widgets[0]` raises `IndexError` when there are no buttons). -/
def TuiApp.dialog (dialog_float : FloatD) (to_focus : Option Control)
    (s : TuiState) : Option TuiState :=
  if s.has_dialog then
    some s
  else
    let s1 : TuiState := { add_float dialog_float s with has_dialog := true }
    match to_focus with
    | some c => (layout_focus c s1).map invalidate
    | none =>
      match dialog_float.buttonControls with
      | [] => none
      | c :: _ => (layout_focus c s1).map invalidate

/-- Embedding of the state transition performed by the dismissal handler
`inner` of `TuiApp.dialog._make_handler` (`app/tui.py` lines 298-305) before
the button callback runs: remove the dialog float, clear `has_dialog`, and,
if the control that was focused when the dialog was shown is still in the
layout, restore focus to it (`try ... except ValueError: pass` swallows a
failed focus). -/
def TuiApp.handler_precb (focused : Control) (dialog_float : FloatD)
    (s : TuiState) : TuiState :=
  let s1 : TuiState := { remove_float dialog_float s with has_dialog := false }
  if focused ∈ s1.controls then
    match layout_focus focused s1 with
    | some s2 => s2
    | none => s1
  else
    s1

/-- Embedding of the dismissal handler `inner` of
`TuiApp.dialog._make_handler` (`app/tui.py` lines 298-308): the captured
pre-dialog focus and the dialog float are the closure's captured variables;
after the dismissal steps, the selected button's callback runs, if any. -/
def TuiApp.make_handler_inner (focused : Control) (dialog_float : FloatD)
    (cb : Option (TuiState → TuiState)) (s : TuiState) : TuiState :=
  let s3 := TuiApp.handler_precb focused dialog_float s
  match cb with
  | some f => f s3
  | none => s3

/-! ## Startup / capability-negotiation model (`EuporieApp.pre_run`,
`core/app.py` lines 212-277) -/

/-- The application state relevant to `pre_run`: the flags and counters the
startup sequence touches.  `queries_sent` records whether
`term_info.send_all()` ran; `query_values_default` records that every
`TerminalQuery` value is still at its default; `cpr_futures` is the length of
`renderer._waiting_for_cpr_futures` (render suppression while non-zero);
`background_tasks` counts tasks scheduled with `create_background_task`. -/
structure CoreState where
  input_closed : Bool
  using_vt100 : Bool
  key_bindings_loaded : Bool
  color_depth_set : Bool
  style_updated : Bool
  colors_event_subs : Nat
  queries_sent : Bool
  query_values_default : Bool
  is_running : Bool
  cpr_futures : Nat
  layout_built : Bool
  files_opened : Bool
  post_load_run : Bool
  cursor_requested : Bool
  invalidated : Bool
  background_tasks : Nat
deriving DecidableEq

/-- Embedding of the local function `terminal_ready` of `EuporieApp.pre_run`
(`core/app.py` lines 232-248): build the layout, open the configured files,
run the post-load hooks, resume rendering (pop the blocking future), request
the cursor position and trigger a repaint. -/
def terminal_ready (s : CoreState) : CoreState :=
  { s with
    layout_built := true
    files_opened := true
    post_load_run := true
    is_running := true
    cpr_futures := s.cpr_futures - 1
    cursor_requested := true
    invalidated := true }

/-- Embedding of the background task `await_terminal_feedback` of
`EuporieApp.pre_run` (`core/app.py` lines 258-274), as it acts once the event
loop runs it: dispatch the terminal queries when a vt100 input is used (the
values no longer all sit at their defaults once responses may arrive), wait,
then complete loading. -/
def await_terminal_feedback (s : CoreState) : CoreState :=
  let s1 : CoreState :=
    if s.using_vt100 then
      { s with queries_sent := true, query_values_default := false }
    else
      s
  terminal_ready s1

/-- Embedding of `EuporieApp.pre_run` (`core/app.py` lines 212-277): load key
bindings, fix the color depth, compute the style and subscribe it to the
terminal-colors change event, suspend rendering (flag plus blocking future),
then either finish loading synchronously (non-interactive input) or schedule
the asynchronous terminal round trip. -/
def EuporieApp.pre_run (s : CoreState) : CoreState :=
  let s1 : CoreState :=
    { s with
      key_bindings_loaded := true
      color_depth_set := true
      style_updated := true
      colors_event_subs := s.colors_event_subs + 1
      is_running := false
      cpr_futures := s.cpr_futures + 1 }
  if s1.input_closed then
    terminal_ready s1
  else
    { s1 with background_tasks := s1.background_tasks + 1 }

/-! ## Style-recomputation model (`EuporieApp.create_merged_style`,
`core/app.py` lines 503-570) -/

/-- The configuration options read by `create_merged_style`. -/
structure StyleConfig where
  color_scheme : String
  custom_foreground_color : String
  custom_background_color : String
  syntax_theme : String
deriving DecidableEq

/-- A foreground/background colour pair; `self.term_info.colors.value` is one
such pair (the negotiated terminal colours, at their defaults until the
terminal responds). -/
structure TermColors where
  fg : String
  bg : String
deriving DecidableEq

/-- The two style-transformation constructors used by
`create_merged_style`. -/
inductive StyleTransformationKind where
  | set_default_colors (fg : String) (bg : String)
  | swap_light_and_dark
deriving DecidableEq

/-- A `ConditionalStyleTransformation`: a transformation together with the
evaluated activation condition it was constructed with. -/
structure CondStyleTransformation where
  kind : StyleTransformationKind
  active : Bool
deriving DecidableEq

/-- The `theme_colors` table of `create_merged_style` (`core/app.py` lines
506-517), keyed by colour-scheme name: fixed pairs for light/dark/white/black,
the negotiated terminal colours for "default", and the user-configured pair
for "custom". -/
def theme_colors (cfg : StyleConfig) (term : TermColors) (scheme : String) :
    Option TermColors :=
  match scheme with
  | "light" => some ⟨"#202020", "#F0F0F0"⟩
  | "dark" => some ⟨"#F0F0F0", "#202020"⟩
  | "white" => some ⟨"#000000", "#FFFFFF"⟩
  | "black" => some ⟨"#FFFFFF", "#000000"⟩
  | "default" => some term
  | "custom" => some ⟨cfg.custom_foreground_color, cfg.custom_background_color⟩
  | _ => none

/-- The `fg`/`bg` entries of `base_colors` (`core/app.py` lines 518-521):
the scheme-selected overlay, falling back to `theme_colors["default"]` (the
negotiated terminal colours) for unknown scheme names.  Every overlay row
supplies both entries, so the baseline (`DEFAULT_COLORS`) never shows through
for these two keys. -/
def base_fg_bg (cfg : StyleConfig) (term : TermColors) : TermColors :=
  (theme_colors cfg term cfg.color_scheme).getD term

/-- The ordered layers merged by `create_merged_style` (`core/app.py` lines
561-570); the palette-driven application style is kept opaque, as are the
fixed component style sheets. -/
inductive StyleLayer where
  | pygments (theme : String)
  | mime_style
  | markdown_style
  | log_style
  | ipywidget_style
  | app_style
deriving DecidableEq

/-- Embedding of `EuporieApp.create_merged_style` (`core/app.py` lines
503-570), restricted to its observable output: the ordered style layers of
the merged style, and the ordered conditional style transformations installed
on `self.style_transformation` (lines 544-557).  The first transformation
forces the scheme's explicit default colours whenever the colour scheme is
not "default"; the second swaps light and dark exactly for the "inverse"
scheme. -/
def EuporieApp.create_merged_style (cfg : StyleConfig) (term : TermColors) :
    List StyleLayer × List CondStyleTransformation :=
  let base := base_fg_bg cfg term
  ([ .pygments cfg.syntax_theme, .mime_style, .markdown_style, .log_style,
     .ipywidget_style, .app_style ],
   [ ⟨.set_default_colors base.fg base.bg, cfg.color_scheme != "default"⟩,
     ⟨.swap_light_and_dark, cfg.color_scheme == "inverse"⟩ ])

/-! ## Concrete states used by the scenario proofs -/

/-- Tab A: close completes. -/
def tabA : Tab := ⟨0, none, true⟩

/-- Tab B: close completes. -/
def tabB : Tab := ⟨1, none, true⟩

/-- Tab C: close declines (its callback is never invoked). -/
def tabC : Tab := ⟨2, none, false⟩

/-- Start state with tabs `[A, B, C]` where A and B would complete their
close and C declines. -/
def stateABC : AppState := ⟨[tabA, tabB, tabC], 0, 0, none, false, []⟩

/-- Tab B variant whose close never invokes its callback (still pending or
declined). -/
def tabBpending : Tab := ⟨1, none, false⟩

/-- Tab C variant whose close completes. -/
def tabCdone : Tab := ⟨2, none, true⟩

/-- Start state with tabs `[A, B, C]` where closing C completes and closing B
never invokes its callback, leaving the close chain in flight at B. -/
def stateChain : AppState := ⟨[tabA, tabBpending, tabCdone], 0, 0, none, false, []⟩

/-- The state reached from `stateChain` after requesting shutdown: C was
closed and cleaned up, the chain is stalled waiting on B. -/
def stateInFlight : AppState := ⟨[tabA, tabBpending], 0, 0, some 0, false, [2, 1]⟩

/-- A tab opened while the first close chain is in flight. -/
def tabD : Tab := ⟨3, none, false⟩

/-- A state with no tabs open. -/
def stateEmpty : AppState := ⟨[], 0, 0, none, false, []⟩

/-- The non-button control focused before any dialog was shown. -/
def ctrlPrior : Control := ⟨1⟩

/-- The body control of the example dialog. -/
def ctrlBody : Control := ⟨10⟩

/-- The button control of the example dialog. -/
def ctrlButton : Control := ⟨11⟩

/-- An example dialog float with one body control and one button. -/
def dlgFloat : FloatD := ⟨5, [ctrlBody], [ctrlButton]⟩

/-- A state in which `dlgFloat` is showing: it is on the overlay list, the
flag is set, its controls are in the layout, and its button holds focus. -/
def stateDialogActive : TuiState :=
  ⟨[dlgFloat], true, [ctrlPrior, ctrlBody, ctrlButton], ctrlButton, false⟩

/-- A freshly constructed application whose input channel is closed. -/
def stateCoreClosed : CoreState :=
  ⟨true, false, false, false, false, 0, false, true, false, 0, false, false,
   false, false, false, 0⟩

/-- A configuration with the "inverse" colour scheme. -/
def cfgInverse : StyleConfig := ⟨"inverse", "", "", "native"⟩

/-- Example negotiated terminal colours. -/
def termDefault : TermColors := ⟨"#ffffff", "#000000"⟩

/-- An example tab factory: produces a tab with identity 7 whose close would
complete. -/
def tabClassW : Option (String → Nat × Bool) := some (fun _ => (7, true))

/-- The state reached from `stateABC` by opening the file `x.ipynb` through
`tabClassW`. -/
def stateOpened : AppState :=
  ⟨[tabA, tabB, tabC, ⟨7, some "x.ipynb", true⟩], 3, 0, some 7, false, []⟩

/-! ## Theorems -/

/-- Claim C8: if the tab collection is empty when shutdown is requested, the
real exit happens synchronously within the call, no close chain is built and
no tab close is requested — the state changes only by the exit flag. -/
theorem claim8_empty_exit (s : AppState) (h : s.tabs = []) :
    TuiApp.exit s = some { s with exited := true } := by
  simp only [TuiApp.exit, h, really_close]

/-- Witness for C8 at the concrete empty state. -/
theorem claim8_witness :
    stateEmpty.tabs = [] ∧
      TuiApp.exit stateEmpty = some { stateEmpty with exited := true } :=
  ⟨by decide, claim8_empty_exit stateEmpty (by decide)⟩

/-- Claim C1 counterexample: with tabs `[A, B, C]` where A and B would
complete their close and C declines, requesting shutdown leaves the
collection as `[A, B, C]` — not `[C]` as the claim states — because the
chain asks the *last* tab C first and C declines, so A and B are never
removed. -/
theorem claim1_counterexample :
    (TuiApp.exit stateABC).map AppState.tabs = some [tabA, tabB, tabC] ∧
    (TuiApp.exit stateABC).map AppState.tabs ≠ some [tabC] ∧
    (TuiApp.exit stateABC).map AppState.exited = some false := by
  decide

/-- Claim C1 (amended): the close chain runs from the last tab to the first,
so with A and B willing to close and C declining, shutdown asks only C; C
declines, hence no tab is removed, the collection still holds `[A, B, C]`,
and the final all-closed callback (the real exit) is never invoked. -/
theorem claim1_amended :
    TuiApp.exit stateABC = some { stateABC with closeRequests := [tabC.id] } := by
  decide

/-- Claim C2: showing a dialog while one is already active is a no-op — no
error is raised and the state (overlay list with its length and top entry,
the active-dialog flag, the focus) is returned unchanged. -/
theorem claim2_dialog_noop (fl : FloatD) (to_focus : Option Control)
    (s : TuiState) (h : s.has_dialog = true) :
    TuiApp.dialog fl to_focus s = some s := by
  simp [TuiApp.dialog, h]

/-- Witness for C2: a second dialog requested while `dlgFloat` is showing. -/
theorem claim2_witness :
    stateDialogActive.has_dialog = true ∧
      TuiApp.dialog ⟨6, [], [⟨12⟩]⟩ none stateDialogActive = some stateDialogActive :=
  ⟨by decide, claim2_dialog_noop ⟨6, [], [⟨12⟩]⟩ none stateDialogActive (by decide)⟩

/-- Claim C3 counterexample: setting the tab index on an *empty* collection
raises (Python `ZeroDivisionError` from `value % len(self.tabs)`), modelled
by `none`; the claim asserted this never errors. -/
theorem claim3_counterexample :
    EuporieApp.tab_idx_set 0 stateEmpty = none := by
  decide

/-- Claim C3 (amended): for every *non-empty* tab collection and every
integer i (negative, zero, or beyond the collection length), setting the
current tab index normalizes i modulo the collection length without error;
on an empty collection the setter raises. -/
theorem claim3_amended (i : Int) (s : AppState) (h : s.tabs ≠ []) :
    ∃ s', EuporieApp.tab_idx_set i s = some s' ∧
      s'.tab_idx = i % (s.tabs.length : Int) ∧
      0 ≤ s'.tab_idx ∧ s'.tab_idx < (s.tabs.length : Int) ∧
      s'.tabs = s.tabs := by
  rcases hs : s.tabs with _ | ⟨t, ts⟩
  · exact absurd hs h
  · have hn : (0 : Int) < ((t :: ts).length : Int) := by
      exact_mod_cast Nat.succ_pos ts.length
    simp only [EuporieApp.tab_idx_set, hs]
    refine ⟨_, rfl, ?_, ?_, ?_, ?_⟩
    · simp [layout_focus_tab]
    · simpa [layout_focus_tab] using Int.emod_nonneg i (by omega)
    · simpa [layout_focus_tab] using Int.emod_lt_of_pos i hn
    · simp [layout_focus_tab]

/-- Witness for C3 (amended) at index -5 on the three-tab state. -/
theorem claim3_witness :
    stateABC.tabs ≠ [] ∧
      ∃ s', EuporieApp.tab_idx_set (-5) stateABC = some s' ∧
        s'.tab_idx = (-5) % ((stateABC.tabs.length : Nat) : Int) ∧
        0 ≤ s'.tab_idx ∧ s'.tab_idx < ((stateABC.tabs.length : Nat) : Int) ∧
        s'.tabs = stateABC.tabs :=
  ⟨by decide, claim3_amended (-5) stateABC (by decide)⟩

/-- Claim C6: with a closed (non-interactive) input channel, `pre_run`
finishes loading synchronously: no terminal query is dispatched and the
query values stay at their defaults (both fields untouched), the layout is
built, the configured files are opened, the post-load hooks run, rendering
resumes (`is_running`, the blocking future popped again) and a repaint is
requested, all within the same call; no background task is scheduled. -/
theorem claim6_noninteractive_negotiation (s : CoreState)
    (h : s.input_closed = true) :
    EuporieApp.pre_run s =
      { s with
        key_bindings_loaded := true
        color_depth_set := true
        style_updated := true
        colors_event_subs := s.colors_event_subs + 1
        is_running := true
        layout_built := true
        files_opened := true
        post_load_run := true
        cursor_requested := true
        invalidated := true } := by
  cases s
  subst h
  simp [EuporieApp.pre_run, terminal_ready]

/-- Witness for C6 at a concrete freshly-constructed state. -/
theorem claim6_witness :
    stateCoreClosed.input_closed = true ∧
      EuporieApp.pre_run stateCoreClosed =
        { stateCoreClosed with
          key_bindings_loaded := true
          color_depth_set := true
          style_updated := true
          colors_event_subs := stateCoreClosed.colors_event_subs + 1
          is_running := true
          layout_built := true
          files_opened := true
          post_load_run := true
          cursor_requested := true
          invalidated := true } :=
  ⟨rfl, claim6_noninteractive_negotiation stateCoreClosed rfl⟩

/-- Claim C7: for every configuration the recomputed merged style carries
exactly two post-composition transformations, in a fixed order: first the
forced default fg/bg transformation, active exactly when the colour scheme is
not "default", then the swap-light-and-dark transformation, active exactly
when the scheme is "inverse"; for the "inverse" scheme both are active in
that order. -/
theorem claim7_style_transformations (cfg : StyleConfig) (term : TermColors) :
    ((EuporieApp.create_merged_style cfg term).2).length = 2 ∧
    (∃ fg bg, ((EuporieApp.create_merged_style cfg term).2)[0]? =
      some ⟨.set_default_colors fg bg, cfg.color_scheme != "default"⟩) ∧
    ((EuporieApp.create_merged_style cfg term).2)[1]? =
      some ⟨.swap_light_and_dark, cfg.color_scheme == "inverse"⟩ ∧
    (cfg.color_scheme = "inverse" →
      ((EuporieApp.create_merged_style cfg term).2).map CondStyleTransformation.active =
        [true, true]) := by
  refine ⟨rfl, ⟨(base_fg_bg cfg term).fg, (base_fg_bg cfg term).bg, rfl⟩, rfl, ?_⟩
  intro h
  simp [EuporieApp.create_merged_style, h]

/-- Witness for C7 with the "inverse" scheme: both transformations active. -/
theorem claim7_witness :
    cfgInverse.color_scheme = "inverse" ∧
      ((EuporieApp.create_merged_style cfgInverse termDefault).2).map
        CondStyleTransformation.active = [true, true] :=
  ⟨rfl, (claim7_style_transformations cfgInverse termDefault).2.2.2 rfl⟩

/-- Claim C5: dismissing a dialog (via any button or Escape — every handler
is an instance of `make_handler_inner`) removes the dialog from the overlay
list and clears the active-dialog flag; focus is restored to the captured
prior control exactly when it is still present in the layout and is left
untouched (no error) when it is gone; and the selected button's callback, if
any, runs only after the focus-restoration step, i.e. the handler is the
callback applied to the post-restoration state. -/
theorem claim5_dialog_dismissal (focused : Control) (fl : FloatD)
    (cb : Option (TuiState → TuiState)) (s : TuiState) :
    TuiApp.make_handler_inner focused fl cb s =
      cb.elim (TuiApp.handler_precb focused fl s)
        (fun f => f (TuiApp.handler_precb focused fl s)) ∧
    (TuiApp.handler_precb focused fl s).dialogs = s.dialogs.erase fl ∧
    (TuiApp.handler_precb focused fl s).has_dialog = false ∧
    (focused ∈ (remove_float fl s).controls →
      (TuiApp.handler_precb focused fl s).current_control = focused) ∧
    (focused ∉ (remove_float fl s).controls →
      (TuiApp.handler_precb focused fl s).current_control = s.current_control) := by
  refine ⟨by cases cb <;> rfl, ?_, ?_, ?_, ?_⟩ <;>
    by_cases hmem : focused ∈ (remove_float fl s).controls <;>
      simp [TuiApp.handler_precb, layout_focus, remove_float, hmem] at * <;>
        simp_all [remove_float]

/-- Witness for C5: dismissing the active example dialog with no callback,
the captured prior control still being in the layout. -/
theorem claim5_witness :
    ctrlPrior ∈ (remove_float dlgFloat stateDialogActive).controls ∧
      TuiApp.make_handler_inner ctrlPrior dlgFloat none stateDialogActive =
        TuiApp.handler_precb ctrlPrior dlgFloat stateDialogActive ∧
      (TuiApp.handler_precb ctrlPrior dlgFloat stateDialogActive).dialogs =
        stateDialogActive.dialogs.erase dlgFloat ∧
      (TuiApp.handler_precb ctrlPrior dlgFloat stateDialogActive).has_dialog = false ∧
      (TuiApp.handler_precb ctrlPrior dlgFloat stateDialogActive).current_control =
        ctrlPrior := by
  have h := claim5_dialog_dismissal ctrlPrior dlgFloat none stateDialogActive
  exact ⟨by decide, h.1, h.2.1, h.2.2.1, h.2.2.2.1 (by decide)⟩

/-- Claim C9: the `tab` property clamps the cached index into range on every
access: whenever the collection is non-empty the index it uses satisfies
`0 ≤ index < length`, the collection itself is untouched, and the tab
returned is the entry at that index (in particular some tab is returned);
when the collection is empty the accessor yields no tab and changes
nothing. -/
theorem claim9_tab_index_clamped (s : AppState) :
    (s.tabs = [] → EuporieApp.tab s = (none, s)) ∧
    (s.tabs ≠ [] →
      0 ≤ ((EuporieApp.tab s).2).tab_idx ∧
      ((EuporieApp.tab s).2).tab_idx < (s.tabs.length : Int) ∧
      ((EuporieApp.tab s).2).tabs = s.tabs ∧
      (EuporieApp.tab s).1 = s.tabs[(((EuporieApp.tab s).2).tab_idx).toNat]? ∧
      ((EuporieApp.tab s).1).isSome = true) := by
  constructor
  · intro h
    simp [EuporieApp.tab, h]
  · intro h
    rcases hs : s.tabs with _ | ⟨t, ts⟩
    · exact absurd hs h
    · have hn : (1 : Int) ≤ ((t :: ts).length : Int) := by
        exact_mod_cast Nat.succ_pos ts.length
      simp only [EuporieApp.tab, hs]
      refine ⟨by omega, by omega, by trivial, by trivial, ?_⟩
      have hlt : (max 0 (min (tab_scan s) (((t :: ts).length : Int) - 1))).toNat <
          (t :: ts).length := by omega
      simp [List.getElem?_eq_getElem hlt]

/-- Witness for C9 at the concrete three-tab state. -/
theorem claim9_witness :
    stateABC.tabs ≠ [] ∧
      (0 ≤ ((EuporieApp.tab stateABC).2).tab_idx ∧
        ((EuporieApp.tab stateABC).2).tab_idx < (stateABC.tabs.length : Int) ∧
        ((EuporieApp.tab stateABC).2).tabs = stateABC.tabs ∧
        (EuporieApp.tab stateABC).1 =
          stateABC.tabs[(((EuporieApp.tab stateABC).2).tab_idx).toNat]? ∧
        ((EuporieApp.tab stateABC).1).isSome = true) :=
  ⟨by decide, (claim9_tab_index_clamped stateABC).2 (by decide)⟩

/-- Setting the tab index never changes the tab list itself. -/
theorem tab_idx_set_tabs (v : Int) (s s' : AppState)
    (h : EuporieApp.tab_idx_set v s = some s') : s'.tabs = s.tabs := by
  rcases hs : s.tabs with _ | ⟨t, ts⟩ <;>
    simp only [EuporieApp.tab_idx_set, hs] at h
  · cases h
  · cases h
    simp [layout_focus_tab, hs]

/-- Focusing a tab never changes the tab list itself. -/
theorem focus_tab_tabs (t : Tab) (s s' : AppState)
    (h : EuporieApp.focus_tab t s = some s') : s'.tabs = s.tabs := by
  unfold EuporieApp.focus_tab at h
  split at h
  · exact tab_idx_set_tabs _ _ _ h
  · cases h

/-- Claim C10: `open_file` is idempotent per path.  Whenever a call
succeeds, repeating it with the same raw path is a complete no-op (same
state back: no tab created or appended, and the existing tab is *not*
re-focused), and in particular if the parsed path already matches an open
tab, the first call itself changes nothing at all. -/
theorem claim10_open_file_idempotent (tab_class : Option (String → Nat × Bool))
    (p : String) (s s' : AppState)
    (hx : EuporieApp.open_file tab_class p s = some s') :
    EuporieApp.open_file tab_class p s' = some s' ∧
      ((∃ t ∈ s.tabs, t.path = some (parse_path p)) → s' = s) := by
  unfold EuporieApp.open_file at hx ⊢
  by_cases hdup : s.tabs.any (fun t => t.path == some (parse_path p))
  · rw [if_pos hdup] at hx
    cases hx
    exact ⟨by rw [if_pos hdup], fun _ => rfl⟩
  · rw [if_neg hdup] at hx
    have hnone : ¬ ∃ t ∈ s.tabs, t.path = some (parse_path p) := by
      intro ⟨t, ht, hp⟩
      exact hdup (List.any_eq_true.mpr ⟨t, ht, beq_iff_eq.mpr hp⟩)
    refine ⟨?_, fun hex => absurd hex hnone⟩
    rcases tab_class with _ | f
    · cases hx
      rw [if_neg hdup]
    · have htabs : s'.tabs = s.tabs ++ [⟨(f (parse_path p)).1, some (parse_path p),
          (f (parse_path p)).2⟩] := by
        rw [focus_tab_tabs _ _ _ hx]
      have hdup' : s'.tabs.any (fun t => t.path == some (parse_path p)) := by
        rw [htabs]
        simp [List.any_append]
      rw [if_pos hdup']

/-- Witness for C10: opening `x.ipynb` once appends and focuses a fresh tab;
opening it again returns the state unchanged. -/
theorem claim10_witness :
    EuporieApp.open_file tabClassW "x.ipynb" stateABC = some stateOpened ∧
      EuporieApp.open_file tabClassW "x.ipynb" stateOpened = some stateOpened :=
  ⟨by decide,
    (claim10_open_file_idempotent tabClassW "x.ipynb" stateABC stateOpened (by decide)).1⟩

/-- Claim C4 counterexample: from `[A, B, C]` with C completing and B never
invoking its callback, a shutdown request closes C (removed) and stalls on B
— the chain is in flight.  Opening tab D and requesting shutdown *again* is
not a no-op: a second chain is built over the live list `[A, B, D]` and a
close is requested of D, a tab that was never part of the in-flight chain. -/
theorem claim4_counterexample :
    TuiApp.exit stateChain = some stateInFlight ∧
      TuiApp.exit { stateInFlight with tabs := stateInFlight.tabs ++ [tabD] } =
        some { stateInFlight with
               tabs := stateInFlight.tabs ++ [tabD]
               closeRequests := [tabCdone.id, tabBpending.id, tabD.id] } := by
  decide

/-- Reading the `tab` property leaves the close-request log unchanged. -/
theorem tab_prop_closeRequests (s : AppState) :
    ((EuporieApp.tab s).2).closeRequests = s.closeRequests := by
  rcases hs : s.tabs with _ | ⟨t, ts⟩ <;> simp [EuporieApp.tab, hs]

/-- Cleaning up a closed tab leaves the close-request log unchanged. -/
theorem cleanup_closeRequests (t : Tab) (s s' : AppState)
    (h : EuporieApp.cleanup_closed_tab t s = some s') :
    s'.closeRequests = s.closeRequests := by
  unfold EuporieApp.cleanup_closed_tab at h
  split at h
  case isFalse => cases h
  case isTrue hmem =>
    dsimp only at h
    split at h
    case h_2 s2 heq =>
      cases h
      have h2 := tab_prop_closeRequests { s with tabs := s.tabs.erase t }
      rw [heq] at h2
      exact h2
    case h_1 v s2 heq =>
      have h2 := tab_prop_closeRequests { s with tabs := s.tabs.erase t }
      rw [heq] at h2
      split at h
      case h_1 t2 s3 heq2 =>
        cases h
        have h3 := tab_prop_closeRequests s2
        rw [heq2] at h3
        exact h3.trans h2
      case h_2 s3 heq2 =>
        cases h
        have h3 := tab_prop_closeRequests s2
        rw [heq2] at h3
        exact h3.trans h2

/-- A close request through `Tab.close` extends the close-request log with
the closed tab's id, followed by whatever the continuation appends. -/
theorem close_requests_extend (t : Tab) (cb : AppState → Option AppState)
    (hcb : ∀ s s', cb s = some s' → ∃ r, s'.closeRequests = s.closeRequests ++ r)
    (s s' : AppState) (h : Tab.close t cb s = some s') :
    ∃ r, s'.closeRequests = s.closeRequests ++ t.id :: r := by
  unfold Tab.close at h
  split at h
  · obtain ⟨r, hr⟩ := hcb _ _ h
    exact ⟨r, by simpa [List.append_assoc] using hr⟩
  · cases h
    exact ⟨[], rfl⟩

/-- The terminal chain callback only appends to the close-request log. -/
theorem final_cb_requests (s s' : AppState) (h : final_cb s = some s') :
    ∃ r, s'.closeRequests = s.closeRequests ++ r := by
  unfold final_cb at h
  split at h
  · cases h
  · rcases Option.map_eq_some'.mp h with ⟨s1, h1, h2⟩
    refine ⟨[], ?_⟩
    rw [← h2]
    simpa [really_close] using cleanup_closeRequests _ _ _ h1

/-- Every callback built by folding `create_cb` over the chain pairs only
appends to the close-request log. -/
theorem chain_cb_requests (pairs : List (Tab × Tab))
    (cb : AppState → Option AppState)
    (hcb : ∀ s s', cb s = some s' → ∃ r, s'.closeRequests = s.closeRequests ++ r) :
    ∀ s s', (pairs.foldl (fun cb p => create_cb p.1 p.2 cb) cb) s = some s' →
      ∃ r, s'.closeRequests = s.closeRequests ++ r := by
  induction pairs generalizing cb with
  | nil => exact hcb
  | cons p rest ih =>
    intro s s' h
    rw [List.foldl_cons] at h
    refine ih (create_cb p.1 p.2 cb) ?_ s s' h
    intro u u' hu
    unfold create_cb at hu
    rcases Option.bind_eq_some.mp hu with ⟨u1, hu1, hu2⟩
    obtain ⟨r, hr⟩ := close_requests_extend _ _ hcb _ _ hu2
    exact ⟨p.1.id :: r, by rw [hr, cleanup_closeRequests _ _ _ hu1]⟩

/-- Claim C4 (amended): `exit` has no in-flight guard.  *Every* shutdown
request on a non-empty collection — in particular one made while a previous
close chain is still in flight — builds a chain over the current live tab
list and requests close of the current last tab (which need not belong to
the in-flight chain), so a repeated request is not a no-op. -/
theorem claim4_amended (s : AppState) (h : s.tabs ≠ []) (s' : AppState)
    (hx : TuiApp.exit s = some s') :
    ∃ tl rest, s.tabs.getLast? = some tl ∧
      s'.closeRequests = s.closeRequests ++ tl.id :: rest := by
  rcases hs : s.tabs with _ | ⟨t, ts⟩
  · exact absurd hs h
  · simp only [TuiApp.exit, hs] at hx
    obtain ⟨r, hr⟩ := close_requests_extend _ _
      (chain_cb_requests ((t :: ts).zip ts) final_cb final_cb_requests) _ _ hx
    exact ⟨(t :: ts).getLast (List.cons_ne_nil t ts), r,
      List.getLast?_eq_getLast_of_ne_nil _, hr⟩

/-- Witness for C4 (amended): the second shutdown request of the
counterexample scenario again asks the current last tab (D) to close. -/
theorem claim4_witness :
    ({ stateInFlight with tabs := stateInFlight.tabs ++ [tabD] } : AppState).tabs ≠ [] ∧
      ∃ tl rest,
        ({ stateInFlight with tabs := stateInFlight.tabs ++ [tabD] } : AppState).tabs.getLast? =
          some tl ∧
        ({ stateInFlight with
           tabs := stateInFlight.tabs ++ [tabD]
           closeRequests := [tabCdone.id, tabBpending.id, tabD.id] } : AppState).closeRequests =
          ({ stateInFlight with tabs := stateInFlight.tabs ++ [tabD] } : AppState).closeRequests ++
            tl.id :: rest :=
  ⟨by decide,
    claim4_amended { stateInFlight with tabs := stateInFlight.tabs ++ [tabD] } (by decide)
      { stateInFlight with
        tabs := stateInFlight.tabs ++ [tabD]
        closeRequests := [tabCdone.id, tabBpending.id, tabD.id] } (by decide)⟩

end Euporie
